import Mathlib

/-!
# Verification of the LLM gateway (changx/litellm_cc)

Shallow embedding, in Lean 4, of the parts of the gateway that the
specification's claims are about: the data model (`Account`, `ApiKey`,
`ModelCost`, `UsageLog`), the auth gate (`auth/dependencies.py`), the cost
calculator (`billing/cost_calculator.py`, `models/model_cost.py`), the billing
manager (`billing/billing_manager.py`), the conditional debit
(`database/repositories.py`), the proxy router and its response handlers
(`proxy/router.py`), the Anthropic SSE stream re-assembly
(`providers/anthropic.py`), cache invalidation publishing
(`cache/cache_manager.py`), and admin key generation (`admin/routes.py`).

Python strings are modelled as `String`/`List Char`, floats as `ℚ` (the spec
allows 64-bit floats; we use exact rationals and model `round(x, 6)` as
round-half-to-even at six decimal places), dicts as structures, exceptions as
`Except`, and the MongoDB collections as explicit lists passed in and out.
Timestamps, ObjectIds and request/response payload snapshots are not modelled:
no claim mentions them.
-/

namespace Gateway

/-! ## Rounding

Python's `round(x, 6)` rounds half to even ("banker's rounding"); we model it
exactly on `ℚ`. -/

/-- Round a rational to the nearest integer, ties to even. -/
def roundHalfEven (x : ℚ) : ℤ :=
  let f : ℤ := ⌊x⌋
  let r : ℚ := x - f
  if r < 1/2 then f
  else if 1/2 < r then f + 1
  else if Even f then f else f + 1

/-- `round(x, 6)`: round to six decimal places, ties to even. -/
def round6 (x : ℚ) : ℚ :=
  (roundHalfEven (x * 1000000) : ℚ) / 1000000

/-! ## Data model (`models/`) -/

/-- `models/base.py` / `models/enums.py`: `BudgetDuration`. -/
inductive BudgetDuration
  | daily | weekly | monthly | total
deriving DecidableEq, Repr

/-- `models/account.py`: `Account`. `created_at`/`updated_at` omitted. -/
structure Account where
  user_id : String
  account_name : Option String := none
  budget_usd : ℚ := 0
  spent_usd : ℚ := 0
  budget_duration : BudgetDuration := .total
  is_active : Bool := true
deriving DecidableEq, Repr

/-- `Account.remaining_budget_usd`: `max(0, budget_usd - spent_usd)`. -/
def Account.remaining_budget_usd (a : Account) : ℚ :=
  max 0 (a.budget_usd - a.spent_usd)

/-- `Account.is_over_budget`: `spent_usd >= budget_usd`. -/
def Account.is_over_budget (a : Account) : Bool :=
  a.budget_usd ≤ a.spent_usd

/-- `Account.can_spend`. -/
def Account.can_spend (a : Account) (amount_usd : ℚ) : Bool :=
  if !a.is_active then false
  else a.spent_usd + amount_usd ≤ a.budget_usd

/-- `models/api_key.py`: `ApiKey`. `allowed_models = none` models Python
`None`; `created_at`/`updated_at` omitted. -/
structure ApiKey where
  api_key : String
  user_id : String
  key_name : String
  is_active : Bool := true
  allowed_models : Option (List String) := none
deriving DecidableEq, Repr

/-- `ApiKey.is_model_allowed` (`models/api_key.py`): inactive keys allow
nothing; `allowed_models is None` allows everything; otherwise membership. -/
def ApiKey.is_model_allowed (k : ApiKey) (model_name : String) : Bool :=
  if !k.is_active then false
  else
    match k.allowed_models with
    | none => true
    | some ms => ms.contains model_name

/-- `models/model_cost.py`: `ModelCost`. `updated_at` omitted.

`billing/cost_calculator.py` reads the attribute
`cached_read_cost_per_million_tokens_usd` from this record; the model class
declares the cache-read rate under the name
`cache_hit_cost_per_million_tokens_usd` (its doc describes it as the cost of
cache-hit tokens). We embed that attribute read as the
`cache_hit_cost_per_million_tokens_usd` field, the only cache-read rate the
record carries. -/
structure ModelCost where
  model_name : String
  provider : String
  input_cost_per_million_tokens_usd : ℚ
  output_cost_per_million_tokens_usd : ℚ
  cache_hit_cost_per_million_tokens_usd : ℚ := 0
  cache_write_cost_per_million_tokens_usd : ℚ := 0
deriving DecidableEq, Repr

/-- `ModelCost.calculate_cost` (`models/model_cost.py`). Its doc comment:
"Currently only supports cached read tokens pricing. To use cached write
tokens pricing, the usage tracking system needs to be updated [...]". -/
def ModelCost.calculate_cost (mc : ModelCost)
    (input_tokens output_tokens : ℕ) (cached_tokens : ℕ := 0) : ℚ :=
  let input_cost := (input_tokens / 1000000 : ℚ) * mc.input_cost_per_million_tokens_usd
  let output_cost := (output_tokens / 1000000 : ℚ) * mc.output_cost_per_million_tokens_usd
  let cached_cost := (cached_tokens / 1000000 : ℚ) * mc.cache_hit_cost_per_million_tokens_usd
  input_cost + output_cost + cached_cost

/-! ## Cost calculator (`billing/cost_calculator.py`) -/

/-- The `usage_data` dict flowing into `CostCalculator.calculate_cost` and
`BillingManager.process_usage_and_bill`; missing keys read as the `.get`
defaults, so every consumer below reads exactly these fields. -/
structure UsageDataDict where
  input_tokens : ℕ := 0
  output_tokens : ℕ := 0
  cached_tokens : ℕ := 0
  cache_creation_tokens : ℕ := 0
  total_tokens : ℕ := 0
  is_cache_hit : Bool := false
deriving DecidableEq, Repr

/-- `CostCalculator._calculate_token_cost`. -/
def calculate_token_cost (token_count : ℕ) (cost_per_million : ℚ) : ℚ :=
  if token_count ≤ 0 then 0
  else (token_count / 1000000 : ℚ) * cost_per_million

/-- The `AttributeError` text pydantic raises for the undeclared attribute. -/
def cached_read_attribute_error_message : String :=
  "AttributeError: 'ModelCost' object has no attribute 'cached_read_cost_per_million_tokens_usd'"

/-- The attribute read `model_cost.cached_read_cost_per_million_tokens_usd`
performed at `billing/cost_calculator.py` lines 63 and 81. `ModelCost`
declares its cache-read rate under the name
`cache_hit_cost_per_million_tokens_usd` and has no attribute of this name, so
the read raises `AttributeError` — for every `ModelCost` instance. -/
def ModelCost.cached_read_cost_per_million_tokens_usd (_ : ModelCost) :
    Except String ℚ :=
  .error cached_read_attribute_error_message

/-- The cost-breakdown dict returned by `CostCalculator.calculate_cost`
(`model_name` and token echo fields omitted). -/
structure CostBreakdown where
  total_cost_usd : ℚ
  input_cost_usd : ℚ
  output_cost_usd : ℚ
  cached_cost_usd : ℚ
  model_found : Bool
deriving DecidableEq, Repr

/-- `CostCalculator.calculate_cost` (`billing/cost_calculator.py`): the cost
computation invoked by billing. `none` models the model having no price
record (zero-cost breakdown, `model_found = False`). With a price record the
function computes the input and output terms, then reads
`model_cost.cached_read_cost_per_million_tokens_usd` — at line 63 when
`is_cache_hit or cached_tokens > 0`, and in any case unconditionally at line
81 while building the breakdown dict — which raises `AttributeError` before
any breakdown can be returned, so the `.ok` arm of that read (kept here to
mirror lines 60–83 of the source) is never taken. -/
def CostCalculator.calculate_cost (model_cost : Option ModelCost)
    (usage_data : UsageDataDict) : Except String CostBreakdown :=
  match model_cost with
  | none =>
      .ok { total_cost_usd := 0, input_cost_usd := 0, output_cost_usd := 0
            cached_cost_usd := 0, model_found := false }
  | some mc =>
      let input_cost := calculate_token_cost usage_data.input_tokens
        mc.input_cost_per_million_tokens_usd
      let output_cost := calculate_token_cost usage_data.output_tokens
        mc.output_cost_per_million_tokens_usd
      match mc.cached_read_cost_per_million_tokens_usd with
      | .error e => .error e
      | .ok rate_cached =>
          let cached_cost :=
            if usage_data.is_cache_hit || usage_data.cached_tokens > 0 then
              calculate_token_cost usage_data.cached_tokens rate_cached
            else 0
          let total_cost := input_cost + output_cost + cached_cost
          .ok { total_cost_usd := round6 total_cost
                input_cost_usd := round6 input_cost
                output_cost_usd := round6 output_cost
                cached_cost_usd := round6 cached_cost
                model_found := true }

/-- The cost formula asserted by the specification (for comparison with the
code): `(input·ri + output·ro + cache_read·rcr + cache_write·rcw)/1e6`,
rounded to 6 decimals. -/
def specCostFormula (mc : ModelCost) (usage_data : UsageDataDict) : ℚ :=
  round6 (((usage_data.input_tokens : ℚ) * mc.input_cost_per_million_tokens_usd
    + (usage_data.output_tokens : ℚ) * mc.output_cost_per_million_tokens_usd
    + (usage_data.cached_tokens : ℚ) * mc.cache_hit_cost_per_million_tokens_usd
    + (usage_data.cache_creation_tokens : ℚ) * mc.cache_write_cost_per_million_tokens_usd)
    / 1000000)

/-! ## Auth gate (`auth/dependencies.py`, `auth/exceptions.py`) -/

/-- An HTTP exception from `auth/exceptions.py`: status code plus detail. -/
structure AuthHTTPError where
  status_code : ℕ
  detail : String
deriving DecidableEq, Repr

/-- `AuthenticationError` (401). -/
def authenticationError (detail : String) : AuthHTTPError :=
  { status_code := 401, detail := detail }

/-- `AuthorizationError` (403). -/
def authorizationError (detail : String) : AuthHTTPError :=
  { status_code := 403, detail := detail }

/-- `BudgetExceededError` (429). -/
def budgetExceededError (detail : String) : AuthHTTPError :=
  { status_code := 429, detail := detail }

/-- `get_authenticated_user` (`auth/dependencies.py`). The cache/database
lookups (`cache_manager.get_api_key`, `cache_manager.get_account`) are passed
in as functions; an `Except.error` is a raised `HTTPException` with the given
status and detail. -/
def get_authenticated_user
    (get_api_key : String → Option ApiKey)
    (get_account : String → Option Account)
    (api_key : String) : Except AuthHTTPError (ApiKey × Account) :=
  match get_api_key api_key with
  | none => .error (authenticationError "Invalid API key")
  | some key_obj =>
    if !key_obj.is_active then
      .error (authorizationError "API key is deactivated")
    else
      match get_account key_obj.user_id with
      | none => .error (authorizationError "Account not found")
      | some account =>
        if !account.is_active then
          .error (authorizationError "Account is deactivated")
        else if account.is_over_budget then
          .error (budgetExceededError "Budget exceeded")
        else
          .ok (key_obj, account)

/-- `require_model_access` (`auth/dependencies.py`). -/
def require_model_access (api_key : ApiKey) (model_name : String) :
    Except AuthHTTPError Unit :=
  if !api_key.is_model_allowed model_name then
    .error (authorizationError
      ("API key does not have access to model: " ++ model_name))
  else .ok ()

/-! ## Conditional atomic debit (`database/repositories.py`) -/

/-- `AccountRepository.atomic_spend`: MongoDB
`update_one({"user_id": uid, "is_active": True}, {"$inc": {"spent_usd": amt}})`.
The collection is a list of documents; `update_one` modifies the first
matching document only. Returns the updated collection and
`modified_count > 0`. -/
def atomic_spend : List Account → String → ℚ → List Account × Bool
  | [], _, _ => ([], false)
  | a :: rest, user_id, amount_usd =>
    if a.user_id = user_id ∧ a.is_active = true then
      ({ a with spent_usd := a.spent_usd + amount_usd } :: rest, true)
    else
      let r := atomic_spend rest user_id amount_usd
      (a :: r.1, r.2)

/-! ## Usage log (`models/usage_log.py`) -/

/-- `UsageLog`. Payload snapshots, IP, timestamps and `processing_time_ms`
omitted (no claim mentions them). -/
structure UsageLog where
  user_id : String
  api_key : String
  model_name : String
  is_cache_hit : Bool := false
  input_tokens : ℕ := 0
  output_tokens : ℕ := 0
  cached_tokens : ℕ := 0
  cache_creation_tokens : ℕ := 0
  total_tokens : ℕ := 0
  cost_usd : ℚ := 0
  request_endpoint : String
  error_message : Option String := none
deriving DecidableEq, Repr

/-- `UsageLog.set_token_counts` (`models/usage_log.py`): the only place that
derives `total_tokens = input + output`. (It is never called by the billing
path, which copies `total_tokens` straight out of `usage_data`.) -/
def UsageLog.set_token_counts (log : UsageLog)
    (input_tokens output_tokens : ℕ) (cached_tokens : ℕ := 0)
    (cache_creation_tokens : ℕ := 0) : UsageLog :=
  { log with
    input_tokens := input_tokens
    output_tokens := output_tokens
    cached_tokens := cached_tokens
    cache_creation_tokens := cache_creation_tokens
    total_tokens := input_tokens + output_tokens }

/-! ## Billing manager (`billing/billing_manager.py`) -/

/-- Mutable persistent state threaded through billing: the `accounts`
collection and the `usagelogs` collection (append-only). -/
structure DbState where
  accounts : List Account
  logs : List UsageLog
deriving Repr

/-- The usage-log entry written by `BillingManager.process_usage_and_bill`. -/
def mkUsageLog (api_key : ApiKey) (account : Account) (model_name : String)
    (usage_data : UsageDataDict) (total_cost : ℚ) (request_endpoint : String) :
    UsageLog :=
  { user_id := account.user_id
    api_key := api_key.api_key
    model_name := model_name
    is_cache_hit := usage_data.is_cache_hit
    input_tokens := usage_data.input_tokens
    output_tokens := usage_data.output_tokens
    cached_tokens := usage_data.cached_tokens
    total_tokens := usage_data.total_tokens
    cost_usd := total_cost
    request_endpoint := request_endpoint }

/-- The error log written by `BillingManager.log_failed_request`: all token
counts zero, `cost_usd = 0.0`, the error message recorded. `request_data.get
("model", "unknown")` is passed in as `model_name`. -/
def mkErrorLog (api_key : ApiKey) (account : Account) (model_name : String)
    (endpoint : String) (error_message : String) : UsageLog :=
  { user_id := account.user_id
    api_key := api_key.api_key
    model_name := model_name
    is_cache_hit := false
    input_tokens := 0
    output_tokens := 0
    cached_tokens := 0
    cache_creation_tokens := 0
    total_tokens := 0
    cost_usd := 0
    request_endpoint := endpoint
    error_message := some error_message }

/-- `BillingManager.log_failed_request`: appends one error log; a failing
append (`log_ok = false`) is caught and swallowed, leaving the state
unchanged. -/
def log_failed_request (log_ok : Bool) (api_key : ApiKey) (account : Account)
    (model_name endpoint error_message : String) (st : DbState) : DbState :=
  if log_ok then
    { st with logs := st.logs ++ [mkErrorLog api_key account model_name endpoint error_message] }
  else st

/-- `BillingManager.process_usage_and_bill`. `model_cost` is the price record
looked up for `model_name` (`none` = no record). The whole body runs under
`try/except Exception as e`: when `calculate_cost` raises (which it does for
every priced model, via the `AttributeError` above), the manager catches it
before any debit, writes one error log `"Billing error: {e}"` via
`log_failed_request` (best-effort), and re-raises. `log_ok` is the fate of
the `usage_repo.create_log` insert: when it fails, the same `except` runs
after the debit, and its `log_failed_request` hits the same failing store, so
the debit survives while no log is written. Cache invalidation publishing on
a successful debit is modelled separately (`publish_invalidation`). Returns
the outcome and the new state. -/
def process_usage_and_bill (log_ok : Bool) (model_cost : Option ModelCost)
    (api_key : ApiKey) (account : Account) (model_name : String)
    (usage_data : UsageDataDict) (request_endpoint : String)
    (st : DbState) : Except String Unit × DbState :=
  match CostCalculator.calculate_cost model_cost usage_data with
  | .error e =>
      (.error ("Billing error: " ++ e),
        log_failed_request log_ok api_key account model_name request_endpoint
          ("Billing error: " ++ e) st)
  | .ok cost_breakdown =>
      let total_cost := cost_breakdown.total_cost_usd
      let debit :=
        if 0 < total_cost then atomic_spend st.accounts account.user_id total_cost
        else (st.accounts, true)
      let st1 : DbState := { st with accounts := debit.1 }
      if log_ok then
        (.ok (), { st1 with logs := st1.logs ++
          [mkUsageLog api_key account model_name usage_data total_cost request_endpoint] })
      else
        -- create_log raised; log_failed_request fails against the same store;
        -- the original exception is re-raised.
        (.error "Billing error: log append failed", st1)

/-! ## LiteLLM usage extraction (`proxy/litellm_client.py`) -/

/-- The `usage` object of a LiteLLM `ModelResponse` (OpenAI shape), as read by
`extract_usage_from_response`: the three counts are taken verbatim. -/
structure LiteLLMUsage where
  prompt_tokens : ℕ := 0
  completion_tokens : ℕ := 0
  total_tokens : ℕ := 0
deriving DecidableEq, Repr

/-- `LiteLLMClient.extract_usage_from_response`: `none` models a response
without a usage object. Note `total_tokens` is copied from upstream, not
recomputed. -/
def extract_usage_from_response (usage : Option LiteLLMUsage)
    (cache_hit : Bool) : UsageDataDict :=
  match usage with
  | none =>
      { input_tokens := 0, output_tokens := 0, total_tokens := 0
        is_cache_hit := cache_hit }
  | some u =>
      { input_tokens := u.prompt_tokens, output_tokens := u.completion_tokens
        total_tokens := u.total_tokens, is_cache_hit := cache_hit }

/-! ## Anthropic usage accumulator (`providers/anthropic.py`) -/

/-- The `UsageData` object accumulated by the Anthropic provider. (The class
is imported from `gateway.models.usage_log`, where no such class is defined;
these are the four attributes the provider constructs it with.) -/
structure UsageData where
  input_tokens : ℕ := 0
  output_tokens : ℕ := 0
  cached_tokens : ℕ := 0
  cache_creation_tokens : ℕ := 0
deriving DecidableEq, Repr

/-- `usage_data.__dict__` as built in
`ProxyRouter._handle_anthropic_[non_]streaming_response`: the instance dict
carries only the four token attributes, so `usage_data.get("total_tokens", 0)`
and `usage_data.get("is_cache_hit", False)` in the billing manager fall back
to their defaults. -/
def UsageData.toDict (u : UsageData) : UsageDataDict :=
  { input_tokens := u.input_tokens
    output_tokens := u.output_tokens
    cached_tokens := u.cached_tokens
    cache_creation_tokens := u.cache_creation_tokens
    total_tokens := 0
    is_cache_hit := false }

/-! ## Proxy router (`proxy/router.py`) -/

/-- An HTTP response to the client: a status code and a body. The body type is
abstract (`β`) for upstream passthrough bodies; error envelopes are rendered
into the same type by the caller-supplied view below. -/
structure HttpResponse (β : Type) where
  status_code : ℕ
  body : β
deriving DecidableEq, Repr

/-- Response bodies produced by `ProxyRouter.route_request`: either the
upstream response dict passed through, or a gateway-generated error envelope
`{"error": {"message": ..., "type": ...}}`, or the bare
`{"error": "Model name is required"}` 400 body. -/
inductive RouteBody (β : Type)
  | upstream (body : β)
  | errorEnvelope (message type_string : String)
  | modelRequired
deriving DecidableEq, Repr

/-- `ProxyRouter._handle_non_streaming_response`: extracts usage, bills, and
returns `JSONResponse(content=response_dict)` (status 200); any exception from
billing is caught and the upstream body is returned anyway (status 200). -/
def handle_non_streaming_response {β : Type} (log_ok : Bool)
    (model_cost : Option ModelCost) (api_key : ApiKey) (account : Account)
    (request_model : String) (endpoint : String)
    (response_body : β) (response_usage : Option LiteLLMUsage)
    (response_cache_hit : Bool) (st : DbState) :
    HttpResponse (RouteBody β) × DbState :=
  let usage_data := extract_usage_from_response response_usage response_cache_hit
  match process_usage_and_bill log_ok model_cost api_key account request_model
      usage_data endpoint st with
  | (.ok _, st') => (⟨200, .upstream response_body⟩, st')
  | (.error _, st') =>
      -- "Still return the response even if billing failed"
      (⟨200, .upstream response_body⟩, st')

/-- `ProxyRouter._handle_anthropic_non_streaming_response`: same contract, the
usage arrives as a `UsageData` accumulator and is converted via `__dict__`. -/
def handle_anthropic_non_streaming_response {β : Type} (log_ok : Bool)
    (model_cost : Option ModelCost) (api_key : ApiKey) (account : Account)
    (request_model : String) (endpoint : String)
    (response_body : β) (usage : UsageData) (st : DbState) :
    HttpResponse (RouteBody β) × DbState :=
  match process_usage_and_bill log_ok model_cost api_key account request_model
      usage.toDict endpoint st with
  | (.ok _, st') => (⟨200, .upstream response_body⟩, st')
  | (.error _, st') => (⟨200, .upstream response_body⟩, st')

/-- Case-insensitive substring test, modelling Python's
`needle in str(e).lower()`. -/
def containsLower (haystack needle : String) : Bool :=
  decide (List.IsInfix (needle.data.map Char.toLower)
    (haystack.data.map Char.toLower))

/-- The error response chosen by `route_request`'s `except` block from the
exception text: `rate_limit` → 429, `invalid`+`key` → 401, otherwise 500
`internal_error`. -/
def routeErrorResponse {β : Type} (e : String) : HttpResponse (RouteBody β) :=
  if containsLower e "rate_limit" then
    ⟨429, .errorEnvelope "Rate limit exceeded" "rate_limit_exceeded"⟩
  else if containsLower e "invalid" && containsLower e "key" then
    ⟨401, .errorEnvelope "Invalid API key provided to upstream service"
      "invalid_request_error"⟩
  else
    ⟨500, .errorEnvelope "Internal server error" "internal_error"⟩

/-- The request body as `route_request` reads it: `model` (may be missing) and
`stream` (default false). -/
structure RequestData where
  model : Option String := none
  stream : Bool := false
deriving DecidableEq, Repr

/-- `ProxyRouter.route_request`, non-streaming path. `upstream` is the outcome
of the provider call (`.error e` = the provider raised with text `e`). The
flow: missing model name → bare 400, **no usage log**; a model-access failure
or provider exception lands in the `except` block, which writes one error log
via `log_failed_request` and maps the message to a status; a successful
upstream response is handed to `_handle_non_streaming_response`. -/
def route_request {β : Type} (log_ok : Bool) (model_cost : Option ModelCost)
    (api_key : ApiKey) (account : Account) (request_data : RequestData)
    (endpoint : String)
    (upstream : Except String (β × Option LiteLLMUsage × Bool))
    (st : DbState) : HttpResponse (RouteBody β) × DbState :=
  match request_data.model with
  | none => (⟨400, .modelRequired⟩, st)
  | some model_name =>
    match require_model_access api_key model_name with
    | .error err =>
        -- AuthorizationError is an Exception: caught by the except block.
        (routeErrorResponse err.detail,
         log_failed_request log_ok api_key account model_name endpoint err.detail st)
    | .ok _ =>
      match upstream with
      | .error e =>
          (routeErrorResponse e,
           log_failed_request log_ok api_key account model_name endpoint e st)
      | .ok (body, usage, cache_hit) =>
          handle_non_streaming_response log_ok model_cost api_key account
            model_name endpoint body usage cache_hit st

/-! ## Admin key generation (`admin/routes.py`) -/

/-- `string.ascii_letters + string.digits`: the alphabet
`generate_api_key` samples from. -/
def key_alphabet : List Char :=
  "abcdefghijklmnopqrstuvwxyzABCDEFGHIJKLMNOPQRSTUVWXYZ0123456789".data

/-- `generate_api_key` (`admin/routes.py`): 48 draws of
`secrets.choice(alphabet)` appended to the literal prefix `llm-`. The
cryptographic randomness of `secrets.choice` is modelled by quantifying over
the draw function `choice` (the alphabet has 62 characters); both the single
and the bulk key-creation routes call this function for every key they
mint. -/
def generate_api_key (choice : Fin 48 → Fin 62) : String :=
  ⟨"llm-".data ++ List.ofFn (fun i => key_alphabet.getD (choice i).val 'a')⟩

/-! ## Cache invalidation bus (`cache/cache_manager.py`) -/

/-- `line.rstrip('\r\n')`: remove every trailing `\r` or `\n`. -/
def rstrip_crlf (l : List Char) : List Char :=
  (l.reverse.dropWhile (fun c => c = '\r' ∨ c = '\n')).reverse

/-- `'\n'.join(current_event_lines) + '\n\n'`: how a buffered event is
re-rendered before being yielded. -/
def render_event (e : List (List Char)) : List Char :=
  List.intercalate ['\n'] e ++ ['\n', '\n']

/-- `event_line.startswith('data: ')`. -/
def starts_with_data (l : List Char) : Bool :=
  l.take 6 = "data: ".data

/-- Whether the buffered event's first `data: ` line is `data: [DONE]`. -/
def is_done_event (e : List (List Char)) : Bool :=
  match e.find? starts_with_data with
  | some d => d = "data: [DONE]".data
  | none => false

/-- The forwarding loop of `stream_generator`: input raw lines, buffered
event lines, output the list of yielded chunks. -/
def stream_forward : List (List Char) → List (List Char) → List (List Char)
  | [], acc => if acc = [] then [] else [render_event acc]
  | raw :: rest, acc =>
    let line := rstrip_crlf raw
    if line = [] then
      if acc = [] then stream_forward rest acc
      else if is_done_event acc then [render_event acc]
      else render_event acc :: stream_forward rest []
    else stream_forward rest (acc ++ [line])

/-- A well-formed SSE line: non-empty, and free of CR/LF. -/
abbrev WfLine (l : List Char) : Prop :=
  l ≠ [] ∧ ∀ c ∈ l, c ≠ '\r' ∧ c ≠ '\n'

/-- A well-formed, non-terminal SSE event: at least one line, all lines
well-formed, and not the `[DONE]` sentinel. -/
abbrev WfEvent (e : List (List Char)) : Prop :=
  e ≠ [] ∧ (∀ l ∈ e, WfLine l) ∧ is_done_event e = false

/-- The raw upstream lines of one event under LF-only framing: each line with
its `\n` terminator, then the blank separator line. -/
def render_raw (e : List (List Char)) : List (List Char) :=
  e.map (fun l => l ++ ['\n']) ++ [['\n']]

/-! ## Theorems -/

/-- Helper: rounding an integer is the identity. -/
theorem roundHalfEven_intCast (n : ℤ) : roundHalfEven (n : ℚ) = n := by
  unfold roundHalfEven
  simp

/-- Helper: `round6 1 = 1`. -/
theorem round6_one : round6 1 = 1 := by
  unfold round6
  rw [show ((1 : ℚ) * 1000000) = ((1000000 : ℤ) : ℚ) by norm_num,
    roundHalfEven_intCast]
  norm_num

/-- C1. The claim is right about the intent and the code is wrong: for every
model **with** a price record, `CostCalculator.calculate_cost` reads the
attribute `cached_read_cost_per_million_tokens_usd`, which `ModelCost` does
not declare (its cache-read rate is `cache_hit_cost_per_million_tokens_usd`),
so billing raises `AttributeError` before computing any cost. Evaluated at a
concrete priced request carrying one cache-write token at a $1/token
cache-write rate: the spec formula demands cost 1, but the program aborts
billing, persists a single zero-cost **error** log (`"Billing error:
AttributeError: ..."`), and never debits the account. -/
theorem billing_on_priced_model_attribute_error :
    process_usage_and_bill true
        (some (⟨"m1", "p", 0, 0, 0, 1000000⟩ : ModelCost))
        (⟨"llm-g", "u1", "k1", true, none⟩ : ApiKey)
        (⟨"u1", none, 10, 0, .total, true⟩ : Account) "m1"
        (⟨0, 0, 0, 1, 0, false⟩ : UsageDataDict) "/v1/messages"
        ⟨[⟨"u1", none, 10, 0, .total, true⟩], []⟩ =
      (.error ("Billing error: " ++ cached_read_attribute_error_message),
        ⟨[⟨"u1", none, 10, 0, .total, true⟩],
          [mkErrorLog (⟨"llm-g", "u1", "k1", true, none⟩ : ApiKey)
            (⟨"u1", none, 10, 0, .total, true⟩ : Account) "m1" "/v1/messages"
            ("Billing error: " ++ cached_read_attribute_error_message)]⟩)
    ∧ (mkErrorLog (⟨"llm-g", "u1", "k1", true, none⟩ : ApiKey)
        (⟨"u1", none, 10, 0, .total, true⟩ : Account) "m1" "/v1/messages"
        ("Billing error: " ++ cached_read_attribute_error_message)).cost_usd = 0
    ∧ specCostFormula (⟨"m1", "p", 0, 0, 0, 1000000⟩ : ModelCost)
        (⟨0, 0, 0, 1, 0, false⟩ : UsageDataDict) = 1 := by
  refine ⟨rfl, rfl, ?_⟩
  unfold specCostFormula
  norm_num [round6_one]

/-- C2. Corrected: an absent (`None`) `allowed_models` on an **active** key
permits every model, but an **empty** `allowed_models` list permits no model
at all (`model_name in []` is false), and an inactive key permits nothing. -/
theorem allowed_models_none_permits_all (k : ApiKey) (model_name : String)
    (hA : k.is_active = true) :
    (k.allowed_models = none →
      k.is_model_allowed model_name = true ∧
      require_model_access k model_name = .ok ())
    ∧ (k.allowed_models = some [] →
      k.is_model_allowed model_name = false ∧
      require_model_access k model_name = .error (authorizationError
        ("API key does not have access to model: " ++ model_name))) := by
  constructor
  · intro hm
    have h1 : k.is_model_allowed model_name = true := by
      simp [ApiKey.is_model_allowed, hA, hm]
    exact ⟨h1, by simp [require_model_access, h1]⟩
  · intro hm
    have h1 : k.is_model_allowed model_name = false := by
      simp [ApiKey.is_model_allowed, hA, hm]
    exact ⟨h1, by simp [require_model_access, h1]⟩

/-- C2 witness: an active key with `allowed_models = None`, checked against
model `claude-3-opus`. -/
theorem allowed_models_none_permits_all_witness :
    ((⟨"llm-a", "u1", "k1", true, none⟩ : ApiKey).allowed_models = none →
      (⟨"llm-a", "u1", "k1", true, none⟩ : ApiKey).is_model_allowed
          "claude-3-opus" = true ∧
      require_model_access (⟨"llm-a", "u1", "k1", true, none⟩ : ApiKey)
        "claude-3-opus" = .ok ())
    ∧ ((⟨"llm-a", "u1", "k1", true, none⟩ : ApiKey).allowed_models = some [] →
      (⟨"llm-a", "u1", "k1", true, none⟩ : ApiKey).is_model_allowed
          "claude-3-opus" = false ∧
      require_model_access (⟨"llm-a", "u1", "k1", true, none⟩ : ApiKey)
        "claude-3-opus" = .error (authorizationError
          ("API key does not have access to model: " ++ "claude-3-opus"))) :=
  allowed_models_none_permits_all
    (⟨"llm-a", "u1", "k1", true, none⟩ : ApiKey) "claude-3-opus" rfl

/-- C2 counterexample: an active key whose `allowed_models` is the empty list
denies the model, where the claim asserts every model is permitted. -/
theorem allowed_models_empty_denies_counterexample :
    (⟨"llm-b", "u1", "k1", true, some []⟩ : ApiKey).is_model_allowed
      "claude-3-opus" = false := by
  decide

/-- C4. Corrected: when the bearer key resolves to an active key record whose
`user_id` has no account, `get_authenticated_user` raises
`AuthorizationError("Account not found")`, i.e. HTTP **403**, not the HTTP 500
the specification asserts; the request is not authenticated. -/
theorem missing_account_yields_403 (get_api_key : String → Option ApiKey)
    (get_account : String → Option Account) (api_key : String) (k : ApiKey)
    (hk : get_api_key api_key = some k) (hA : k.is_active = true)
    (ha : get_account k.user_id = none) :
    get_authenticated_user get_api_key get_account api_key =
      .error (authorizationError "Account not found") ∧
    (authorizationError "Account not found").status_code = 403 := by
  constructor
  · unfold get_authenticated_user
    rw [hk]
    simp [hA, ha]
  · rfl

/-- C4 witness: a concrete store with the key `llm-x` active for user `u1`
and no account whatsoever. -/
theorem missing_account_yields_403_witness :
    get_authenticated_user
      (fun s => if s = "llm-x" then some (⟨"llm-x", "u1", "k1", true, none⟩ : ApiKey)
        else none)
      (fun _ => none) "llm-x" =
      .error (authorizationError "Account not found") ∧
    (authorizationError "Account not found").status_code = 403 :=
  missing_account_yields_403
    (fun s => if s = "llm-x" then some (⟨"llm-x", "u1", "k1", true, none⟩ : ApiKey)
      else none)
    (fun _ => none) "llm-x" (⟨"llm-x", "u1", "k1", true, none⟩ : ApiKey)
    (by simp) rfl rfl

/-- C4 counterexample: on that same store the auth gate's response status is
403, refuting the claimed 500 (`internal_error`). -/
theorem missing_account_not_500_counterexample :
    get_authenticated_user
      (fun s => if s = "llm-y" then some (⟨"llm-y", "u2", "k2", true, none⟩ : ApiKey)
        else none)
      (fun _ => none) "llm-y" =
      .error (⟨403, "Account not found"⟩ : AuthHTTPError) ∧
    (403 : ℕ) ≠ 500 := by
  constructor
  · simp [get_authenticated_user, authorizationError]
  · decide

/-- C7. Confirmed: the conditional debit matches only a document with the
given `user_id` and `is_active = true`; it reports failure (and leaves the
collection untouched) when no such document exists; and every document it
does not match — in particular every inactive account — is unchanged, so an
inactive account is never debited. -/
theorem atomic_spend_only_debits_active (accounts : List Account)
    (user_id : String) (amount_usd : ℚ) :
    ((atomic_spend accounts user_id amount_usd).2 = true ↔
      ∃ a ∈ accounts, a.user_id = user_id ∧ a.is_active = true)
    ∧ ((atomic_spend accounts user_id amount_usd).2 = false →
      (atomic_spend accounts user_id amount_usd).1 = accounts)
    ∧ List.Forall₂ (fun old new => new = old ∨
        (old.user_id = user_id ∧ old.is_active = true ∧
          new = { old with spent_usd := old.spent_usd + amount_usd }))
      accounts (atomic_spend accounts user_id amount_usd).1 := by
  induction accounts with
  | nil =>
    refine ⟨by simp [atomic_spend], by simp [atomic_spend], ?_⟩
    simp only [atomic_spend]
    exact List.Forall₂.nil
  | cons a rest ih =>
    by_cases h : a.user_id = user_id ∧ a.is_active = true
    · simp only [atomic_spend, if_pos h]
      refine ⟨by simp [h.1, h.2], by simp, ?_⟩
      exact List.Forall₂.cons (Or.inr ⟨h.1, h.2, rfl⟩)
        (List.forall₂_same.2 (fun x _ => Or.inl rfl))
    · simp only [atomic_spend, if_neg h]
      refine ⟨?_, ?_, List.Forall₂.cons (Or.inl rfl) ih.2.2⟩
      · rw [ih.1]
        constructor
        · rintro ⟨a', ha', hp⟩
          exact ⟨a', List.mem_cons_of_mem a ha', hp⟩
        · rintro ⟨a', ha', hp⟩
          rcases List.mem_cons.1 ha' with rfl | ha'
          · exact absurd ⟨hp.1, hp.2⟩ h
          · exact ⟨a', ha', hp⟩
      · intro hf
        rw [ih.2.1 hf]

/-- C10. Confirmed: for both unary response handlers, whatever the outcome of
the billing/logging step (`.ok` or a raised-and-caught exception), the client
receives HTTP 200 with the upstream response body passed through. -/
theorem billing_failure_never_masks_upstream_response {β : Type}
    (log_ok : Bool) (model_cost : Option ModelCost) (api_key : ApiKey)
    (account : Account) (request_model endpoint : String) (body : β)
    (usage : Option LiteLLMUsage) (cache_hit : Bool) (usage_data : UsageData)
    (st st2 : DbState) :
    (handle_non_streaming_response log_ok model_cost api_key account
        request_model endpoint body usage cache_hit st).1 =
      ⟨200, .upstream body⟩
    ∧ (handle_anthropic_non_streaming_response log_ok model_cost api_key
        account request_model endpoint body usage_data st2).1 =
      ⟨200, .upstream body⟩ := by
  constructor
  · unfold handle_non_streaming_response
    rcases hp : process_usage_and_bill log_ok model_cost api_key account
      request_model (extract_usage_from_response usage cache_hit) endpoint st
      with ⟨res, st'⟩
    cases res <;> simp [hp]
  · unfold handle_anthropic_non_streaming_response
    rcases hp : process_usage_and_bill log_ok model_cost api_key account
      request_model usage_data.toDict endpoint st2 with ⟨res, st'⟩
    cases res <;> simp [hp]

/-- Helper: every character of the generation alphabet is alphanumeric. -/
theorem key_alphabet_alphanum :
    ∀ j : Fin 62, (key_alphabet.getD j.val 'a').isAlphanum = true := by
  decide

/-- C9. Corrected: every key minted by `generate_api_key` (used by both the
single and the bulk admin creation routes) is the prefix `llm-` — not the
`gw-` the specification asserts — followed by exactly 48 characters drawn
from the alphanumeric alphabet. -/
theorem generate_api_key_structure (choice : Fin 48 → Fin 62) :
    (generate_api_key choice).data.take 4 = "llm-".data
    ∧ (generate_api_key choice).data.length = 52
    ∧ ∀ ch ∈ (generate_api_key choice).data.drop 4, ch.isAlphanum = true := by
  refine ⟨?_, ?_, ?_⟩
  · show (("llm-".data ++ _).take 4) = "llm-".data
    rw [show (4 : ℕ) = ("llm-".data).length from rfl, List.take_left]
  · show ("llm-".data ++ _).length = 52
    rw [List.length_append, List.length_ofFn]
    rfl
  · intro ch hch
    rw [show (generate_api_key choice).data = "llm-".data ++ List.ofFn
        (fun i => key_alphabet.getD (choice i).val 'a') from rfl,
      show (4 : ℕ) = ("llm-".data).length from rfl, List.drop_left] at hch
    obtain ⟨i, hi⟩ := (List.mem_ofFn _ _).1 hch
    rw [← hi]
    exact key_alphabet_alphanum (choice i)

/-- C9 counterexample: the key minted for a concrete draw does not begin with
`gw-` (its first three characters are `llm`). -/
theorem generate_api_key_not_gw_counterexample :
    (generate_api_key (fun _ => ⟨0, by norm_num⟩)).data.take 3 ≠ "gw-".data := by
  decide

/-- C5. Corrected: the billing path copies `total_tokens` verbatim out of the
usage dict (it never calls `UsageLog.set_token_counts`). For a model without
a price record, the persisted record carries the dict's counts as-is, so the
invariant `total_tokens = input_tokens + output_tokens` holds exactly when
the upstream-reported usage is internally consistent. For a model **with** a
price record, billing aborts on the `AttributeError` and the single persisted
record is an all-zero error log, which satisfies the invariant trivially —
as does every error log. -/
theorem total_tokens_invariant_when_usage_consistent (u : LiteLLMUsage)
    (cache_hit : Bool) (api_key : ApiKey)
    (account : Account) (model_name endpoint : String) (st : DbState)
    (h : u.total_tokens = u.prompt_tokens + u.completion_tokens) :
    (∃ l, (process_usage_and_bill true none api_key account model_name
        (extract_usage_from_response (some u) cache_hit) endpoint st).2.logs =
        st.logs ++ [l]
      ∧ l.total_tokens = l.input_tokens + l.output_tokens)
    ∧ (∀ mc : ModelCost,
      ∃ l, (process_usage_and_bill true (some mc) api_key account model_name
        (extract_usage_from_response (some u) cache_hit) endpoint st).2.logs =
        st.logs ++ [l]
      ∧ l.total_tokens = l.input_tokens + l.output_tokens)
    ∧ ∀ msg : String,
      (mkErrorLog api_key account model_name endpoint msg).total_tokens =
        (mkErrorLog api_key account model_name endpoint msg).input_tokens +
        (mkErrorLog api_key account model_name endpoint msg).output_tokens := by
  refine ⟨?_, ?_, ?_⟩
  · refine ⟨mkUsageLog api_key account model_name
      (extract_usage_from_response (some u) cache_hit) 0 endpoint, rfl, ?_⟩
    simpa [mkUsageLog, extract_usage_from_response] using h
  · intro mc
    exact ⟨mkErrorLog api_key account model_name endpoint
      ("Billing error: " ++ cached_read_attribute_error_message), rfl, rfl⟩
  · intro msg
    rfl

/-- C5 witness: a consistent upstream usage block (2 + 3 = 5) billed both for
a model without a price record and for priced models. -/
theorem total_tokens_invariant_witness :
    (∃ l, (process_usage_and_bill true none (⟨"llm-w", "u1", "k1", true, none⟩ : ApiKey)
        (⟨"u1", none, 10, 0, .total, true⟩ : Account) "gpt-4"
        (extract_usage_from_response (some ⟨2, 3, 5⟩) false)
        "/v1/chat/completions" ⟨[], []⟩).2.logs = ([] : List UsageLog) ++ [l]
      ∧ l.total_tokens = l.input_tokens + l.output_tokens)
    ∧ (∀ mc : ModelCost,
      ∃ l, (process_usage_and_bill true (some mc)
        (⟨"llm-w", "u1", "k1", true, none⟩ : ApiKey)
        (⟨"u1", none, 10, 0, .total, true⟩ : Account) "gpt-4"
        (extract_usage_from_response (some ⟨2, 3, 5⟩) false)
        "/v1/chat/completions" ⟨[], []⟩).2.logs = ([] : List UsageLog) ++ [l]
      ∧ l.total_tokens = l.input_tokens + l.output_tokens)
    ∧ ∀ msg : String,
      (mkErrorLog (⟨"llm-w", "u1", "k1", true, none⟩ : ApiKey)
        (⟨"u1", none, 10, 0, .total, true⟩ : Account) "gpt-4"
        "/v1/chat/completions" msg).total_tokens =
        (mkErrorLog (⟨"llm-w", "u1", "k1", true, none⟩ : ApiKey)
          (⟨"u1", none, 10, 0, .total, true⟩ : Account) "gpt-4"
          "/v1/chat/completions" msg).input_tokens +
        (mkErrorLog (⟨"llm-w", "u1", "k1", true, none⟩ : ApiKey)
          (⟨"u1", none, 10, 0, .total, true⟩ : Account) "gpt-4"
          "/v1/chat/completions" msg).output_tokens :=
  total_tokens_invariant_when_usage_consistent ⟨2, 3, 5⟩ false
    (⟨"llm-w", "u1", "k1", true, none⟩ : ApiKey)
    (⟨"u1", none, 10, 0, .total, true⟩ : Account) "gpt-4"
    "/v1/chat/completions" ⟨[], []⟩ (by decide)

/-- C5 counterexample: an upstream usage block reporting
`{prompt: 1, completion: 1, total: 5}` is persisted as-is, violating the
claimed invariant (5 ≠ 1 + 1). -/
theorem total_tokens_invariant_counterexample :
    ∃ l ∈ (process_usage_and_bill true none
        (⟨"llm-c", "u1", "k1", true, none⟩ : ApiKey)
        (⟨"u1", none, 10, 0, .total, true⟩ : Account) "gpt-4"
        (extract_usage_from_response (some ⟨1, 1, 5⟩) false)
        "/v1/chat/completions" ⟨[], []⟩).2.logs,
      l.total_tokens ≠ l.input_tokens + l.output_tokens := by
  refine ⟨mkUsageLog (⟨"llm-c", "u1", "k1", true, none⟩ : ApiKey)
    (⟨"u1", none, 10, 0, .total, true⟩ : Account) "gpt-4"
    (extract_usage_from_response (some ⟨1, 1, 5⟩) false) 0
    "/v1/chat/completions", ?_, ?_⟩
  · show _ ∈ ([] : List UsageLog) ++ [_]
    exact List.mem_singleton_self _
  · decide

/-- C6. Corrected: a request that fails with an exception during provider
routing — whether the model-access check raised (the upstream is then never
consulted) or the upstream call raised — produces exactly one usage-log
entry, with `cost_usd = 0` and the error message recorded. Requests rejected
before that point (e.g. a missing model name, which returns 400 directly)
produce **no** log entry, and the entry is only written if the log append
itself succeeds. -/
theorem provider_error_logs_exactly_once {β : Type}
    (model_cost : Option ModelCost) (api_key : ApiKey) (account : Account)
    (model_name endpoint msg : String)
    (upstream : Except String (β × Option LiteLLMUsage × Bool))
    (st : DbState) :
    (∀ err, require_model_access api_key model_name = .error err →
      route_request (β := β) true model_cost api_key account
          ⟨some model_name, false⟩ endpoint upstream st =
        (routeErrorResponse err.detail,
          { st with logs := st.logs ++
              [mkErrorLog api_key account model_name endpoint err.detail] }))
    ∧ (require_model_access api_key model_name = .ok () →
      route_request (β := β) true model_cost api_key account
          ⟨some model_name, false⟩ endpoint (.error msg) st =
        (routeErrorResponse msg,
          { st with logs := st.logs ++
              [mkErrorLog api_key account model_name endpoint msg] }))
    ∧ ∀ m : String,
      (mkErrorLog api_key account model_name endpoint m).cost_usd = 0
      ∧ (mkErrorLog api_key account model_name endpoint m).error_message =
          some m := by
  refine ⟨?_, ?_, fun m => ⟨rfl, rfl⟩⟩
  · intro err herr
    have hred : route_request (β := β) true model_cost api_key account
        ⟨some model_name, false⟩ endpoint upstream st =
        match require_model_access api_key model_name with
        | .error e => (routeErrorResponse e.detail,
            log_failed_request true api_key account model_name endpoint e.detail st)
        | .ok _ =>
          match upstream with
          | .error e => (routeErrorResponse e,
              log_failed_request true api_key account model_name endpoint e st)
          | .ok (body, usage, cache_hit) =>
              handle_non_streaming_response true model_cost api_key account
                model_name endpoint body usage cache_hit st := rfl
    rw [hred, herr]
    rfl
  · intro haccess
    have hred : route_request (β := β) true model_cost api_key account
        ⟨some model_name, false⟩ endpoint (.error msg) st =
        match require_model_access api_key model_name with
        | .error err => (routeErrorResponse err.detail,
            log_failed_request true api_key account model_name endpoint err.detail st)
        | .ok _ => (routeErrorResponse msg,
            log_failed_request true api_key account model_name endpoint msg st) := rfl
    rw [hred, haccess]
    rfl

/-- C6 witness: a key restricted to the empty model list is denied
`claude-3-opus` and the denial appends exactly one error log (the upstream is
never consulted); a failed upstream call (`Anthropic API error (500)`) on an
unrestricted active key likewise appends exactly one zero-cost error log with
the message recorded. -/
theorem provider_error_logs_exactly_once_witness :
    (route_request (β := Unit) true none
        (⟨"llm-e2", "u1", "k1", true, some []⟩ : ApiKey)
        (⟨"u1", none, 10, 0, .total, true⟩ : Account)
        ⟨some "claude-3-opus", false⟩ "/v1/messages"
        (.ok ((), none, false)) ⟨[], []⟩ =
      (routeErrorResponse (authorizationError
          ("API key does not have access to model: " ++ "claude-3-opus")).detail,
        { (⟨[], []⟩ : DbState) with logs := (⟨[], []⟩ : DbState).logs ++
            [mkErrorLog (⟨"llm-e2", "u1", "k1", true, some []⟩ : ApiKey)
              (⟨"u1", none, 10, 0, .total, true⟩ : Account) "claude-3-opus"
              "/v1/messages" (authorizationError
                ("API key does not have access to model: " ++ "claude-3-opus")).detail] }))
    ∧ (route_request (β := Unit) true none
        (⟨"llm-e", "u1", "k1", true, none⟩ : ApiKey)
        (⟨"u1", none, 10, 0, .total, true⟩ : Account)
        ⟨some "claude-3-opus", false⟩ "/v1/messages"
        (.error "Anthropic API error (500): upstream exploded") ⟨[], []⟩ =
      (routeErrorResponse "Anthropic API error (500): upstream exploded",
        { (⟨[], []⟩ : DbState) with logs := (⟨[], []⟩ : DbState).logs ++
            [mkErrorLog (⟨"llm-e", "u1", "k1", true, none⟩ : ApiKey)
              (⟨"u1", none, 10, 0, .total, true⟩ : Account) "claude-3-opus"
              "/v1/messages" "Anthropic API error (500): upstream exploded"] }))
    ∧ (mkErrorLog (⟨"llm-e", "u1", "k1", true, none⟩ : ApiKey)
        (⟨"u1", none, 10, 0, .total, true⟩ : Account) "claude-3-opus"
        "/v1/messages" "Anthropic API error (500): upstream exploded").cost_usd = 0
      ∧ (mkErrorLog (⟨"llm-e", "u1", "k1", true, none⟩ : ApiKey)
        (⟨"u1", none, 10, 0, .total, true⟩ : Account) "claude-3-opus"
        "/v1/messages" "Anthropic API error (500): upstream exploded").error_message =
        some "Anthropic API error (500): upstream exploded" :=
  ⟨(provider_error_logs_exactly_once (β := Unit) none
      (⟨"llm-e2", "u1", "k1", true, some []⟩ : ApiKey)
      (⟨"u1", none, 10, 0, .total, true⟩ : Account) "claude-3-opus"
      "/v1/messages" "unused" (.ok ((), none, false)) ⟨[], []⟩).1
      (authorizationError
        ("API key does not have access to model: " ++ "claude-3-opus")) rfl,
   (provider_error_logs_exactly_once (β := Unit) none
      (⟨"llm-e", "u1", "k1", true, none⟩ : ApiKey)
      (⟨"u1", none, 10, 0, .total, true⟩ : Account) "claude-3-opus"
      "/v1/messages" "Anthropic API error (500): upstream exploded"
      (.error "Anthropic API error (500): upstream exploded") ⟨[], []⟩).2.1 rfl,
   (provider_error_logs_exactly_once (β := Unit) none
      (⟨"llm-e", "u1", "k1", true, none⟩ : ApiKey)
      (⟨"u1", none, 10, 0, .total, true⟩ : Account) "claude-3-opus"
      "/v1/messages" "Anthropic API error (500): upstream exploded"
      (.error "Anthropic API error (500): upstream exploded") ⟨[], []⟩).2.2
      "Anthropic API error (500): upstream exploded"⟩

/-- C6 counterexample: a request whose body names no model terminates in an
error (HTTP 400) yet produces **zero** usage-log entries, refuting "every
request that terminates in an error produces exactly one usage-log entry". -/
theorem error_request_without_log_counterexample :
    (route_request (β := Unit) true none
        (⟨"llm-f", "u1", "k1", true, none⟩ : ApiKey)
        (⟨"u1", none, 10, 0, .total, true⟩ : Account)
        ⟨none, false⟩ "/v1/chat/completions" (.error "never called")
        ⟨[], []⟩).2.logs = []
    ∧ (route_request (β := Unit) true none
        (⟨"llm-f", "u1", "k1", true, none⟩ : ApiKey)
        (⟨"u1", none, 10, 0, .total, true⟩ : Account)
        ⟨none, false⟩ "/v1/chat/completions" (.error "never called")
        ⟨[], []⟩).1.status_code = 400 :=
  ⟨rfl, rfl⟩

/-- Helper: `rstrip('\r\n')` of a CR/LF-free line followed by its `\n`
terminator recovers the line. -/
theorem rstrip_crlf_append_newline (l : List Char)
    (h : ∀ c ∈ l, c ≠ '\r' ∧ c ≠ '\n') : rstrip_crlf (l ++ ['\n']) = l := by
  unfold rstrip_crlf
  rw [List.reverse_append]
  have h1 : (['\n'] : List Char).reverse ++ l.reverse = '\n' :: l.reverse := rfl
  rw [h1, List.dropWhile_cons]
  norm_num
  cases hl : l.reverse with
  | nil =>
    simp at hl
    simp [hl]
  | cons c cs =>
    have hc : c ∈ l := by
      have : c ∈ l.reverse := hl ▸ List.mem_cons_self c cs
      exact List.mem_reverse.1 this
    have hcp : (decide (c = '\r') || decide (c = '\n')) = false := by
      simp only [Bool.or_eq_false_iff, decide_eq_false_iff_not]
      exact h _ hc
    rw [List.dropWhile_cons, hcp]
    simp only [Bool.false_eq_true, if_false]
    rw [← hl, List.reverse_reverse]

/-- Helper: feeding the terminated lines of an event into the loop buffers
exactly those lines. -/
theorem stream_forward_feed (ls : List (List Char))
    (h : ∀ l ∈ ls, WfLine l) (rest : List (List Char))
    (acc : List (List Char)) :
    stream_forward (ls.map (fun l => l ++ ['\n']) ++ rest) acc =
      stream_forward rest (acc ++ ls) := by
  induction ls generalizing acc with
  | nil => simp
  | cons l ls ih =>
    have hl := h l (List.mem_cons_self l ls)
    simp only [List.map_cons, List.cons_append]
    rw [show stream_forward ((l ++ ['\n']) :: (ls.map (fun l => l ++ ['\n']) ++ rest)) acc =
        (if rstrip_crlf (l ++ ['\n']) = [] then
          if acc = [] then stream_forward (ls.map (fun l => l ++ ['\n']) ++ rest) acc
          else if is_done_event acc then [render_event acc]
          else render_event acc :: stream_forward (ls.map (fun l => l ++ ['\n']) ++ rest) []
        else stream_forward (ls.map (fun l => l ++ ['\n']) ++ rest)
          (acc ++ [rstrip_crlf (l ++ ['\n'])])) from rfl]
    rw [rstrip_crlf_append_newline l hl.2, if_neg hl.1,
      ih (fun x hx => h x (List.mem_cons_of_mem l hx)), List.append_assoc]
    rfl

/-- C3. Corrected: the Anthropic streaming path forwards each complete SSE
event as a single chunk, in upstream order, as soon as its terminating blank
line arrives — but it re-renders the event as `'\n'.join(lines) + '\n\n'`
after stripping the original line terminators, so forwarding is
event-for-event rather than byte-for-byte (CR/LF line endings are rewritten
to LF; under LF-only framing the rendering coincides with the input). -/
theorem sse_events_forwarded_in_order (events : List (List (List Char)))
    (h : ∀ e ∈ events, WfEvent e) :
    stream_forward ((events.map render_raw).flatten) [] =
      events.map render_event := by
  induction events with
  | nil => rfl
  | cons e es ih =>
    obtain ⟨hne, hlines, hdone⟩ := h e (List.mem_cons_self e es)
    simp only [List.map_cons, List.flatten_cons]
    rw [show render_raw e ++ (es.map render_raw).flatten =
        e.map (fun l => l ++ ['\n']) ++ (['\n'] :: (es.map render_raw).flatten)
      from by simp [render_raw]]
    rw [stream_forward_feed e hlines _ [], List.nil_append]
    rw [show stream_forward (['\n'] :: (es.map render_raw).flatten) e =
        (if rstrip_crlf ['\n'] = [] then
          if e = [] then stream_forward ((es.map render_raw).flatten) e
          else if is_done_event e then [render_event e]
          else render_event e :: stream_forward ((es.map render_raw).flatten) []
        else stream_forward ((es.map render_raw).flatten)
          (e ++ [rstrip_crlf ['\n']])) from rfl]
    rw [show rstrip_crlf ['\n'] = [] from rfl, if_pos rfl, if_neg hne, hdone]
    simp only [Bool.false_eq_true, if_false]
    rw [ih (fun x hx => h x (List.mem_cons_of_mem e hx))]

/-- C3 witness: two well-formed events (`message_start`-style data line plus a
second event) are forwarded as exactly two chunks in order. -/
theorem sse_events_forwarded_in_order_witness :
    stream_forward (([["data: a".data], ["data: b".data]].map render_raw).flatten)
      [] = [["data: a".data], ["data: b".data]].map render_event :=
  sse_events_forwarded_in_order [["data: a".data], ["data: b".data]]
    (by decide)

/-- C3 counterexample: an upstream event framed with CRLF line endings is not
forwarded byte-for-byte — the meter re-renders it with bare LF, so the
concatenation of forwarded chunks differs from the concatenation of upstream
bytes. -/
theorem sse_not_byte_for_byte_counterexample :
    (stream_forward ["data: x\r\n".data, "\r\n".data] []).flatten ≠
      (["data: x\r\n".data, "\r\n".data] : List (List Char)).flatten := by
  decide

end Gateway
